import Mathlib

/-!
Verification of the TrustLayer verification-orchestration engine.

This file shallowly embeds the core decision logic of the repository:
the verdict-enforcement pass (`enforceStrictVerdict`, `isAbsoluteClaim`),
the trust-score aggregator (`calculateTrustScore`), the per-provider
retry executor (`executeWithRetry`) and its statistics
(`updateSuccessRate`), the sliding-window admission queue
(`SimpleQueue.add`, modelled as `simpleQueueAdd`), the verdict cascade
(`getLLMVerdict`), the per-claim verification pipeline (`verifyClaim`),
and the two `analyze` entry points.

Remote calls (the LLM providers, Wikipedia, web search, the document
store, `JSON.parse`) are modelled as explicit parameters: a provider's
work function is a map from the attempt number to `Except String String`
(the text it produced, or the error it threw), parsing is a function
into `Except Unit _`, and the clock is an explicit integer timestamp.
JavaScript numbers are modelled as `ℤ`/`ℚ` (all comparisons the code
performs are exact on these values), and thrown exceptions as the
`Except.error` constructor, so a function returning a bare value cannot
propagate an exception by construction.
-/

namespace TrustLayer

/-- JS `Array.isPrefix`-style check on character lists (used to model
`String.prototype.startsWith` and substring search). -/
def isPrefixChars : List Char → List Char → Bool
  | [], _ => true
  | _ :: _, [] => false
  | a :: asx, b :: bs => a == b && isPrefixChars asx bs

/-- JS `String.prototype.includes` on character lists: the pattern is a
prefix of some suffix of the text. -/
def containsSub (pat : List Char) : List Char → Bool
  | [] => isPrefixChars pat []
  | c :: rest => isPrefixChars pat (c :: rest) || containsSub pat rest

/-- JS `String.prototype.toLowerCase` (ASCII-level, which covers every
string the engine compares). -/
def jsToLower (s : String) : String := ⟨s.data.map Char.toLower⟩

/-- JS `String.prototype.replace` with a plain-string pattern: only the
first occurrence is replaced; text without the pattern is unchanged. -/
def replaceFirstChars (pat repl : List Char) : List Char → List Char
  | [] => if isPrefixChars pat [] then repl else []
  | c :: rest =>
    if isPrefixChars pat (c :: rest) then repl ++ (c :: rest).drop pat.length
    else c :: replaceFirstChars pat repl rest

-- ============================================================================
-- Verdict enforcement (citation.service: isAbsoluteClaim, enforceStrictVerdict)
-- ============================================================================

/-- Raw reasoning-engine verdict statuses (`LLMVerdict.status` in the source). -/
inductive LStatus where
  | verified
  | partially_verified
  | hallucinated
deriving DecidableEq

/-- The raw `{status, confidence, reason}` object parsed from a provider reply. -/
structure LLMVerdict where
  status : LStatus
  confidence : ℤ
  reason : String
deriving DecidableEq

/-- `ABSOLUTE_CLAIM_WORDS` from the source: claims holding one of these
words require absolute proof. -/
def ABSOLUTE_CLAIM_WORDS : List String :=
  ["widely", "all", "every", "always", "never", "only", "fully", "completely",
   "entirely", "officially", "deployed", "launched", "released", "implemented",
   "established", "created", "founded", "invented", "discovered", "proven",
   "confirmed", "guaranteed", "certain", "definitely", "exclusively", "universally"]

/-- `isAbsoluteClaim(claim)`: the lowercased claim contains one of the
absolute-claim words. -/
def isAbsoluteClaim (claim : String) : Bool :=
  let lowerClaim := jsToLower claim
  ABSOLUTE_CLAIM_WORDS.any (fun word => containsSub word.data lowerClaim.data)

/-- `enforceStrictVerdict(parsed, claim)`: the deterministic post-processing
pass over a raw provider verdict. -/
def enforceStrictVerdict (parsed : LLMVerdict) (claim : String) : LLMVerdict :=
  -- Rule 1: map partially_verified to hallucinated (binary only)
  if parsed.status = LStatus.partially_verified then
    { status := LStatus.hallucinated, confidence := 85,
      reason := parsed.reason ++ " [Partial verification = unverified]" }
  -- Rule 2: low-confidence verified becomes hallucinated
  else if parsed.status = LStatus.verified ∧ parsed.confidence < 85 then
    { status := LStatus.hallucinated, confidence := 85,
      reason := parsed.reason ++ " [Below confidence threshold]" }
  -- Rule 3: absolute claims require 90+ confidence
  else if isAbsoluteClaim claim = true ∧ parsed.status = LStatus.verified ∧
      parsed.confidence < 90 then
    { status := LStatus.hallucinated, confidence := 85,
      reason := parsed.reason ++ " [Absolute claim requires 90%+ confidence]" }
  -- Rule 4: clamp the confidence range (the source's ternary writes 85 twice)
  else if parsed.confidence < 85 ∨ 100 < parsed.confidence then
    { parsed with confidence := if parsed.status = LStatus.verified then 85 else 85 }
  else parsed

-- ============================================================================
-- Trust score aggregation (scoring.service: calculateTrustScore)
-- ============================================================================

/-- Final per-claim statuses (`VerificationResult.status` in the source). -/
inductive VStatus where
  | verified
  | uncertain
  | hallucinated
deriving DecidableEq

/-- One evidence artifact `{source, verdict, url?}`. -/
structure Evidence where
  source : String
  verdict : String
  url : Option String
deriving DecidableEq

/-- One verified claim record as `analyze` assembles it
(`{id, claim, status, confidence, explanation, evidence}`). -/
structure VClaim where
  id : String
  claim : String
  status : VStatus
  confidence : ℤ
  explanation : String
  evidence : List Evidence
deriving DecidableEq

/-- The `{verified, uncertain, hallucinated, total}` breakdown object. -/
structure Breakdown where
  verified : ℕ
  uncertain : ℕ
  hallucinated : ℕ
  total : ℕ
deriving DecidableEq

/-- The object `calculateTrustScore` returns; `breakdown` is absent on the
zero-claims path. -/
structure TrustScoreResult where
  score : ℤ
  label : String
  summary : String
  breakdown : Option Breakdown
deriving DecidableEq

/-- JS `Math.round`: round half toward positive infinity. -/
def jsRound (q : ℚ) : ℤ := ⌊q + 1/2⌋

/-- `calculateTrustScore(claims)` from the source: weighted sum
(+1.0 verified, +0.3 uncertain, -1.5 hallucinated), normalized against the
theoretical max `total*1.0` and min `total*-1.5`, clamped to [0,100] and
rounded; label and summary follow the claim distribution. -/
def calculateTrustScore (claims : List VClaim) : TrustScoreResult :=
  if claims.length = 0 then
    { score := 50, label := "No Claims",
      summary := "No verifiable claims found in the text.", breakdown := none }
  else
    let verified := (claims.filter (fun c => decide (c.status = VStatus.verified))).length
    let uncertain := (claims.filter (fun c => decide (c.status = VStatus.uncertain))).length
    let hallucinated := (claims.filter (fun c => decide (c.status = VStatus.hallucinated))).length
    let total := claims.length
    let score : ℚ := (verified : ℚ) * 1.0 + (uncertain : ℚ) * 0.3 + (hallucinated : ℚ) * (-1.5)
    let maxScore : ℚ := (total : ℚ) * 1.0
    let minScore : ℚ := (total : ℚ) * (-1.5)
    let normalizedScore : ℚ := ((score - minScore) / (maxScore - minScore)) * 100
    let finalScore : ℚ := max 0 (min 100 normalizedScore)
    let labelSummary : String × String :=
      if 0 < hallucinated then
        if (total : ℚ) * 0.5 ≤ (hallucinated : ℚ) then
          ("High Risk - Multiple Hallucinations",
           s!"{hallucinated} of {total} claims contain false information. Manual review strongly recommended.")
        else if 2 ≤ hallucinated then
          ("Review Required - Hallucinations Detected",
           s!"{hallucinated} hallucinated claims detected. Verify all information before use.")
        else
          ("Caution - Hallucination Detected",
           s!"{hallucinated} claim appears to contain false information.")
      else if (total : ℚ) * 0.7 ≤ (verified : ℚ) then
        ("High Confidence", s!"{verified} of {total} claims verified against trusted sources.")
      else if (total : ℚ) * 0.5 ≤ (verified : ℚ) then
        ("Moderate Confidence",
         s!"{verified} verified, {uncertain} uncertain. Some claims need additional verification.")
      else if (total : ℚ) * 0.7 ≤ (uncertain : ℚ) then
        ("Low Confidence - Mostly Uncertain",
         s!"Only {verified} of {total} claims could be verified. Most claims need manual review.")
      else
        ("Review Recommended",
         s!"Mixed results: {verified} verified, {uncertain} uncertain, {hallucinated} hallucinated.")
    { score := jsRound finalScore, label := labelSummary.1, summary := labelSummary.2,
      breakdown := some ⟨verified, uncertain, hallucinated, total⟩ }

-- ============================================================================
-- Rate limiter and retry executor (rate-limiter.service)
-- ============================================================================

/-- Events sent to the log/event sink that the claims mention. -/
inductive LogEvent where
  | providerFailure (provider : String) (error : String)
  | warn (message : String)
deriving DecidableEq

/-- `ProviderStats` from the source; `successRate` is a JS number, modelled
as `ℚ`. -/
structure ProviderStats where
  name : String
  successCount : ℕ
  failureCount : ℕ
  lastError : Option String
  successRate : ℚ
deriving DecidableEq

/-- `updateSuccessRate`: `successRate = total > 0 ? successCount/total*100 : 0`. -/
def updateSuccessRate (st : ProviderStats) : ProviderStats :=
  let total := st.successCount + st.failureCount
  { st with successRate :=
      if 0 < total then ((st.successCount : ℚ) / (total : ℚ)) * 100 else 0 }

/-- `error?.message?.slice(0, 100) || "Unknown error"` applied to a thrown
error message. -/
def jsErrMsg (e : String) : String :=
  if e.take 100 = "" then "Unknown error" else e.take 100

deriving instance DecidableEq for Except

/-- What one call to `executeWithRetry` produces: its return value or thrown
error, the provider's updated stats, how many times the work function was
invoked, the backoff sleeps performed (ms), and the events logged. -/
structure RetryResult where
  result : Except String String
  stats : ProviderStats
  calls : ℕ
  delays : List ℕ
  log : List LogEvent
deriving DecidableEq

/-- The retry loop of `executeWithRetry`: `fuel` is the number of attempts
still allowed, `attempt` the 1-based index of the next attempt, `delay` the
next backoff. On success the success counter and rate update; on the last
allowed attempt's failure the failure counter, `lastError` and rate update,
a provider-failure event is emitted and the last error is thrown; otherwise
the loop sleeps `delay` and doubles it. -/
def retryGo (name : String) (fn : ℕ → Except String String) (maxRetries : ℕ) :
    ℕ → ℕ → ℕ → ProviderStats → List ℕ → Option String → RetryResult
  | 0, attempt, _delay, st, delays, lastErr =>
    -- the loop is over without a success: throw lastError or a generic error
    let msg := lastErr.getD s!"{name} verification failed after {maxRetries} retries"
    { result := Except.error msg, stats := st, calls := attempt - 1, delays := delays,
      log := [LogEvent.providerFailure name msg] }
  | fuel + 1, attempt, delay, st, delays, _lastErr =>
    match fn attempt with
    | Except.ok r =>
      let st1 := updateSuccessRate { st with successCount := st.successCount + 1 }
      { result := Except.ok r, stats := st1, calls := attempt, delays := delays, log := [] }
    | Except.error e =>
      if fuel = 0 then
        -- attempt = maxRetries: record the exhausted failure and throw
        let st1 := updateSuccessRate
          { st with failureCount := st.failureCount + 1, lastError := some (jsErrMsg e) }
        { result := Except.error e, stats := st1, calls := attempt, delays := delays,
          log := [LogEvent.providerFailure name e] }
      else
        retryGo name fn maxRetries fuel (attempt + 1) (delay * 2) st (delays ++ [delay]) (some e)

/-- `executeWithRetry(provider, fn, maxRetries)`: run `fn` up to `maxRetries`
times with exponential backoff starting at 1000 ms. `fn n` is the outcome of
the n-th invocation of the work function (the queue admission delay is
modelled separately by `simpleQueueAdd`, and does not change which attempt
runs or what it returns). -/
def executeWithRetry (name : String) (fn : ℕ → Except String String)
    (maxRetries : ℕ) (st : ProviderStats) : RetryResult :=
  retryGo name fn maxRetries maxRetries 1 1000 st [] none

/-- `SimpleQueue.add` at a call issued at time `now` with recent admission
timestamps `requestTimes`: drop timestamps aged out of `interval`, and when
the trailing window is at `intervalCap` wait `interval - (now - oldest) + 100`
ms before starting the work function; the start time is recorded. Returns
(start time of the work function, updated timestamp list). -/
def simpleQueueAdd (interval : ℤ) (intervalCap : ℕ) (requestTimes : List ℤ)
    (now : ℤ) : ℤ × List ℤ :=
  let filtered := requestTimes.filter (fun t => decide (now - t < interval))
  if intervalCap ≤ filtered.length then
    let oldestTime := filtered.headD 0
    let waitTime := interval - (now - oldestTime) + 100
    let start := now + max 0 waitTime
    (start, filtered ++ [start])
  else
    (now, filtered ++ [now])

-- ============================================================================
-- Entity extraction (citation.service: extractClaimAnalysis and its fallback)
-- ============================================================================

/-- `ClaimAnalysis` from the source. -/
structure ClaimAnalysis where
  entities : List String
  intent : String
  attributes : List String
  searchQuery : String
deriving DecidableEq

/-- The stop-word set of `extractClaimAnalysisFallback`. -/
def stopwords : List String :=
  ["the", "a", "an", "his", "her", "its", "their", "he", "she", "it", "they",
   "this", "that", "these", "those", "is", "are", "was", "were", "be", "been",
   "have", "has", "had", "do", "does", "did", "will", "would", "could", "should",
   "however", "although", "because", "since", "while", "when", "where", "which",
   "who", "whom", "whose", "what", "how", "and", "or", "but", "if", "then",
   "for", "with", "from", "to", "of", "in", "on", "at", "by", "as", "also",
   "first", "second", "third", "new", "old", "many", "some", "all", "most",
   "according", "stated", "claimed", "said", "reported", "during", "recent"]

/-- `word.replace(/[^a-zA-Z]/g, "")`. -/
def cleanWord (w : String) : String := ⟨w.data.filter Char.isAlpha⟩

/-- `cleanWord[0] === cleanWord[0].toUpperCase()` on a word already known
to be non-empty. -/
def firstCharUpper (s : String) : Bool :=
  match s.data with
  | [] => true
  | c :: _ => c.toUpper == c

/-- The proper-noun accumulation loop of `extractClaimAnalysisFallback`:
consecutive capitalized non-stop-words longer than 2 letters are joined
with spaces; a break pushes the accumulated run when it is longer than 2. -/
def collectNouns : List String → String → List String
  | [], currentNoun =>
    if 2 < currentNoun.length then [currentNoun] else []
  | w :: rest, currentNoun =>
    let cw := cleanWord w
    if cw ≠ "" ∧ firstCharUpper cw = true ∧ 2 < cw.length ∧
        stopwords.contains (jsToLower cw) = false then
      collectNouns rest (if currentNoun = "" then cw else currentNoun ++ " " ++ cw)
    else if currentNoun ≠ "" then
      (if 2 < currentNoun.length then [currentNoun] else []) ++ collectNouns rest ""
    else
      collectNouns rest ""

/-- `extractClaimAnalysisFallback(claim)`: deterministic non-AI extraction of
up to 4 proper-noun runs, with the truncated claim as the search query. -/
def extractClaimAnalysisFallback (claim : String) : ClaimAnalysis :=
  { entities := (collectNouns (claim.splitOn " ") "").take 4
  , intent := "general_fact"
  , attributes := []
  , searchQuery := claim.take 100 }

/-- The left-to-right scan of `output.replace(/```json|```/g, "")`. -/
def stripFence : List Char → List Char
  | [] => []
  | c :: rest =>
    if isPrefixChars "```json".data (c :: rest) then stripFence ((c :: rest).drop 7)
    else if isPrefixChars "```".data (c :: rest) then stripFence ((c :: rest).drop 3)
    else c :: stripFence rest
termination_by s => s.length
decreasing_by
  all_goals simp_all [List.length_drop]
  all_goals omega

/-- `result.replace(/```json|```/g, "").trim()`. -/
def cleanLLMOutput (s : String) : String := (String.mk (stripFence s.data)).trim

/-- Process-wide provider statistics, one `ProviderStats` per provider. -/
structure Stats where
  gemini : ProviderStats
  groq : ProviderStats
  openrouter : ProviderStats
deriving DecidableEq

/-- The provider statistics at process start. -/
def initialStats : Stats :=
  { gemini := { name := "Gemini", successCount := 0, failureCount := 0,
                lastError := none, successRate := 0 }
  , groq := { name := "Groq", successCount := 0, failureCount := 0,
              lastError := none, successRate := 0 }
  , openrouter := { name := "OpenRouter", successCount := 0, failureCount := 0,
                    lastError := none, successRate := 0 } }

/-- One provider try-block of `extractClaimAnalysis`: the cascade moves on
when `executeWithRetry` threw, or when cleaning/`JSON.parse` of the reply
threw inside the same `try`. -/
def tryParseAnalysis (r : Except String String)
    (parse : String → Except Unit ClaimAnalysis) : Option ClaimAnalysis :=
  match r with
  | Except.error _ => none
  | Except.ok out =>
    match parse (cleanLLMOutput out) with
    | Except.ok ca => some ca
    | Except.error _ => none

/-- `extractClaimAnalysis(claim)`: Gemini, then Groq, then OpenRouter, each
through `executeWithRetry` with 3 attempts; when all three try-blocks fail
the deterministic fallback is used. `parse` models `JSON.parse` plus the
shape check of the reply. -/
def extractClaimAnalysis (claim : String)
    (fnGemini fnGroq fnOpenrouter : ℕ → Except String String)
    (parse : String → Except Unit ClaimAnalysis)
    (st : Stats) : ClaimAnalysis × Stats × List LogEvent :=
  let r1 := executeWithRetry "gemini" fnGemini 3 st.gemini
  let st1 : Stats := { st with gemini := r1.stats }
  match tryParseAnalysis r1.result parse with
  | some ca => (ca, st1, r1.log)
  | none =>
    let r2 := executeWithRetry "groq" fnGroq 3 st1.groq
    let st2 : Stats := { st1 with groq := r2.stats }
    match tryParseAnalysis r2.result parse with
    | some ca => (ca, st2, r1.log ++ r2.log)
    | none =>
      let r3 := executeWithRetry "openrouter" fnOpenrouter 3 st2.openrouter
      let st3 : Stats := { st2 with openrouter := r3.stats }
      match tryParseAnalysis r3.result parse with
      | some ca => (ca, st3, r1.log ++ r2.log ++ r3.log)
      | none => (extractClaimAnalysisFallback claim, st3, r1.log ++ r2.log ++ r3.log)

-- ============================================================================
-- Verdict cascade (citation.service: getLLMVerdict)
-- ============================================================================

/-- One provider try-block of `getLLMVerdict`: a thrown `executeWithRetry`,
an empty/short raw reply (`rawOutput.length < 20`), or a cleaning/parse
throw all fall through to the next provider. -/
def tryVerdict (r : Except String String)
    (parseV : String → Except Unit LLMVerdict) : Option LLMVerdict :=
  match r with
  | Except.error _ => none
  | Except.ok rawOutput =>
    if rawOutput.length < 20 then none
    else
      match parseV (cleanLLMOutput rawOutput) with
      | Except.ok parsed => some parsed
      | Except.error _ => none

/-- `getLLMVerdict(claim, wikipediaSummary, searchSnippets, claimAnalysis)`:
Groq first, then Gemini, then OpenRouter, each through `executeWithRetry`
with 3 attempts, the successful parse passed through `enforceStrictVerdict`;
when every provider is exhausted the fixed conservative default is returned
and a provider-failure event for "all" is emitted. The evidence arguments
only shape the prompt sent to the remote engine, so they do not appear in
this control-flow model; the function returns a plain value, so no exception
can propagate to the caller. -/
def getLLMVerdict (claim : String)
    (fnGroq fnGemini fnOpenrouter : ℕ → Except String String)
    (parseV : String → Except Unit LLMVerdict)
    (st : Stats) : LLMVerdict × Stats × List LogEvent :=
  let r1 := executeWithRetry "groq" fnGroq 3 st.groq
  let st1 : Stats := { st with groq := r1.stats }
  match tryVerdict r1.result parseV with
  | some parsed => (enforceStrictVerdict parsed claim, st1, r1.log)
  | none =>
    let r2 := executeWithRetry "gemini" fnGemini 3 st1.gemini
    let st2 : Stats := { st1 with gemini := r2.stats }
    match tryVerdict r2.result parseV with
    | some parsed => (enforceStrictVerdict parsed claim, st2, r1.log ++ r2.log)
    | none =>
      let r3 := executeWithRetry "openrouter" fnOpenrouter 3 st2.openrouter
      let st3 : Stats := { st2 with openrouter := r3.stats }
      match tryVerdict r3.result parseV with
      | some parsed => (enforceStrictVerdict parsed claim, st3, r1.log ++ r2.log ++ r3.log)
      | none =>
        ( { status := LStatus.hallucinated, confidence := 85,
            reason := "AI verification unavailable. Claim cannot be verified without AI reasoning." }
        , st3
        , r1.log ++ r2.log ++ r3.log ++
            [LogEvent.providerFailure "all" "All LLM providers exhausted"] )

-- ============================================================================
-- Per-claim pipeline (citation.service: verifyClaim)
-- ============================================================================

/-- A Wikipedia summary lookup result `{extract, url, title}`. -/
structure WikiResult where
  extract : String
  url : String
  title : String
deriving DecidableEq

/-- A web-search result `{title, snippet, url}`. -/
structure SearchResult where
  title : String
  snippet : String
  url : String
deriving DecidableEq

/-- `VerificationResult` from the source: the per-claim verdict handed back
by `verifyClaim`. -/
structure VerificationResult where
  status : VStatus
  confidence : ℤ
  explanation : String
  evidence : List Evidence
deriving DecidableEq

/-- `verifyClaim(claim)`: extract the claim analysis (Gemini→Groq→OpenRouter
cascade), gather Wikipedia evidence for the first 3 entities and web-search
evidence (top 2 results), get the enforced LLM verdict
(Groq→Gemini→OpenRouter cascade), map it to a final status, retag the first
evidence entry with the final status, and substitute the fixed placeholder
entry when no evidence was gathered. `wiki` models the two-step Wikipedia
lookup per entity (`none` = both steps missed) and `searchResults` the
SerpAPI reply (`[]` = no key configured or the search failed). -/
def verifyClaim (claim : String)
    (extFnGemini extFnGroq extFnOpenrouter : ℕ → Except String String)
    (parseA : String → Except Unit ClaimAnalysis)
    (wiki : String → Option WikiResult)
    (searchResults : List SearchResult)
    (verFnGroq verFnGemini verFnOpenrouter : ℕ → Except String String)
    (parseV : String → Except Unit LLMVerdict)
    (st : Stats) : VerificationResult × Stats × List LogEvent :=
  let E := extractClaimAnalysis claim extFnGemini extFnGroq extFnOpenrouter parseA st
  let claimAnalysis := E.1
  let wikiSources := (claimAnalysis.entities.take 3).filterMap wiki
  let combinedWikiSummary :=
    String.join (wikiSources.map (fun w => "\n\n[" ++ w.title ++ "]: " ++ w.extract))
  let wikiEvidence : List Evidence := wikiSources.map (fun w =>
    { source := "Wikipedia: " ++ w.title, verdict := "Source retrieved", url := some w.url })
  let searchSnippets := searchResults.map (fun r => r.title ++ ": " ++ r.snippet)
  let searchEvidence : List Evidence := (searchResults.take 2).map (fun r =>
    { source := r.title.take 50, verdict := "Web source", url := some r.url })
  let evidence := wikiEvidence ++ searchEvidence
  -- combinedWikiSummary and searchSnippets only feed the verdict prompt
  let G := getLLMVerdict claim verFnGroq verFnGemini verFnOpenrouter parseV E.2.1
  let llmVerdict := G.1
  let finalStatus : VStatus :=
    match llmVerdict.status with
    | LStatus.verified => VStatus.verified
    | LStatus.hallucinated => VStatus.hallucinated
    | LStatus.partially_verified => VStatus.uncertain
  let evidence2 : List Evidence :=
    match evidence with
    | [] => []
    | e :: rest =>
      { e with verdict :=
          match finalStatus with
          | VStatus.verified => "Supports claim"
          | VStatus.hallucinated => "Contradicts claim"
          | VStatus.uncertain => "Related content" } :: rest
  let _promptInputs := (combinedWikiSummary, searchSnippets)
  ( { status := finalStatus, confidence := llmVerdict.confidence,
      explanation := llmVerdict.reason,
      evidence :=
        match evidence2 with
        | [] => [{ source := "AI Verification Engine", verdict := "Analysis complete",
                   url := none }]
        | e :: rest => e :: rest }
  , G.2.1, E.2.2 ++ G.2.2 )

-- ============================================================================
-- The Mongo-backed analyze (backend verification.service)
-- ============================================================================

/-- The stop-word/pronoun set the source filter uses for source titles. -/
def badSourceWords : List String :=
  ["the", "a", "an", "his", "her", "its", "their", "he", "she", "it", "they",
   "this", "that", "these", "those", "is", "are", "was", "were", "be", "been",
   "have", "has", "had", "do", "does", "did", "will", "would", "could", "should",
   "may", "might", "must", "can", "however", "although", "because", "since",
   "while", "when", "where", "which", "who", "whom", "whose", "what", "how",
   "and", "or", "but", "if", "then", "else", "for", "with", "from", "to", "of",
   "in", "on", "at", "by", "as", "verification engine", "wikipedia:"]

/-- `isValidSource(title)` from the backend `analyze`. -/
def isValidSource (title : String) : Bool :=
  let lowerTitle := (jsToLower title).trim
  if lowerTitle.length < 3 then false
  else
    let startsWiki := isPrefixChars "wikipedia:".data lowerTitle.data
    let entity := (String.mk (replaceFirstChars "wikipedia:".data [] lowerTitle.data)).trim
    if startsWiki && (decide (entity.length < 3) || badSourceWords.contains entity) then false
    else if badSourceWords.contains lowerTitle then false
    else true

/-- `arr.filter((e, i, arr) => arr.findIndex(x => x.source === e.source) === i)`:
keep the first evidence entry per source title. -/
def dedupBySource (arr : List Evidence) : List Evidence :=
  (arr.enum.filter (fun p =>
     decide (arr.findIdx (fun x => x.source == p.2.source) = p.1))).map Prod.snd

/-- One hexadecimal digit (upper case, as `encodeURIComponent` emits). -/
def hexDigit (n : ℕ) : Char := "0123456789ABCDEF".data.getD n '0'

/-- Percent-encoding of one byte. -/
def percentEncodeByte (b : ℕ) : List Char :=
  ['%', hexDigit (b / 16 % 16), hexDigit (b % 16)]

/-- The characters `encodeURIComponent` leaves as they are. -/
def uriUnreservedChar (c : Char) : Bool :=
  c.isAlphanum || ['-', '_', '.', '!', '~', '*', Char.ofNat 39, '(', ')'].contains c

/-- The JS builtin `encodeURIComponent`: unreserved characters kept, every
other character percent-encoded byte by byte in UTF-8. -/
def encodeURIComponent (s : String) : String :=
  ⟨(s.data.map (fun c =>
      if uriUnreservedChar c then [c]
      else ((String.singleton c).toUTF8.toList.map (fun b => percentEncodeByte b.toNat)).flatten)).flatten⟩

/-- A `{title, url, verified}` entry of the run's top-level sources. -/
structure SourceEntry where
  title : String
  url : String
  verified : Bool
deriving DecidableEq

/-- What the backend `analyze` returns on success. -/
structure BackendAnalyzeResult where
  analysisId : String
  score : ℤ
  label : String
  claims : List VClaim
  sources : List SourceEntry
  verifiedText : String
  summary : String
  breakdown : Breakdown
deriving DecidableEq

/-- The backend `analyze(text, userId)` after per-claim verification:
`verifiedClaims` is the list built from `extractClaims`/`verifyClaim` (both
remote pipelines), `storeOk` whether `VerificationResult.create` succeeded
and `storeId` the id it returned. The `create` call is not wrapped in any
`try`, so its failure propagates out of `analyze` (`Except.error`) before
the response is built. -/
def backendAnalyze (text : String) (verifiedClaims : List VClaim)
    (storeOk : Bool) (storeId : String) : Except Unit BackendAnalyzeResult :=
  let scoreResult := calculateTrustScore verifiedClaims
  let verifiedText := String.intercalate ". "
    ((verifiedClaims.filter (fun c => decide (c.status = VStatus.verified))).map (fun c => c.claim))
  let sources := (dedupBySource
      (((verifiedClaims.map (fun c => c.evidence)).flatten).filter
        (fun e => isValidSource e.source))).map (fun e =>
    { title := e.source
    , url := e.url.getD ("https://en.wikipedia.org/wiki/" ++
        encodeURIComponent (String.mk
          ((replaceFirstChars "Wikipedia: ".data [] e.source.data).map
            (fun c => if c = ' ' then '_' else c))))
    , verified := containsSub "support".data (jsToLower e.verdict).data })
  if storeOk = false then Except.error ()
  else
    let breakdown := scoreResult.breakdown.getD
      { verified := (verifiedClaims.filter (fun c => decide (c.status = VStatus.verified))).length
      , uncertain := (verifiedClaims.filter (fun c => decide (c.status = VStatus.uncertain))).length
      , hallucinated := (verifiedClaims.filter (fun c => decide (c.status = VStatus.hallucinated))).length
      , total := verifiedClaims.length }
    -- the initial summary from scoreResult is always overwritten by this chain
    let h := breakdown.hallucinated
    let v := breakdown.verified
    let u := breakdown.uncertain
    let t := breakdown.total
    let summary :=
      if 0 < h then
        let plural := if 1 < h then "s" else ""
        s!"⚠️ {h} hallucination{plural} detected. {v} verified, {u} uncertain out of {t} claims."
      else if v = t then s!"✓ All {t} claims verified against trusted sources."
      else if 0 < v then s!"{v} of {t} claims verified. {u} claims need additional review."
      else s!"{t} claims analyzed. {u} need additional verification."
    let _inputText := text
    Except.ok
      { analysisId := storeId, score := scoreResult.score, label := scoreResult.label,
        claims := verifiedClaims, sources := sources, verifiedText := verifiedText,
        summary := summary, breakdown := breakdown }

-- ============================================================================
-- The in-memory analyze (the alternate verification.service variant)
-- ============================================================================

/-- A claim record of the in-memory service (`{id, text, status, confidence, ...}`). -/
structure P8Claim where
  id : String
  text : String
  status : VStatus
  confidence : ℤ
deriving DecidableEq

/-- What `computeVerification` hands to the in-memory `analyze`. -/
structure VerifyResponse where
  trustScore : ℤ
  label : String
  claims : List P8Claim
  verifiedText : String
  summary : String
deriving DecidableEq

/-- The `RunRecord` the in-memory `analyze` stores in its `runs` map. -/
structure P8RunRecord where
  analysisId : String
  inputText : String
  removedClaims : List String
  trustScore : ℤ
  label : String
  claims : List P8Claim
  verifiedText : String
  summary : String
deriving DecidableEq

/-- The `AnalyzeResponseDto` the in-memory `analyze` returns. -/
structure P8AnalyzeResponse where
  analysisId : String
  trustScore : ℤ
  label : String
  summary : String
deriving DecidableEq

/-- The in-memory `analyze(text)` after `computeVerification`: re-key the
claims under the run's `analysisId`, build the run record, attempt
persistence inside a `try` whose `catch` only logs a warning
(`storeOk = false` is the store's `create` throwing), and return the
response. Returns (response, stored run record, log events). -/
def part008Analyze (text : String) (verification : VerifyResponse)
    (analysisId : String) (storeOk : Bool) :
    P8AnalyzeResponse × P8RunRecord × List LogEvent :=
  let claimsWithIds := verification.claims.enum.map (fun p =>
    { p.2 with id := analysisId ++ "-c" ++ toString (p.1 + 1) })
  let run : P8RunRecord :=
    { analysisId := analysisId
    , inputText := text
    , removedClaims :=
        (claimsWithIds.filter (fun c => decide (c.status ≠ VStatus.verified))).map
          (fun c => c.text)
    , trustScore := verification.trustScore
    , label := verification.label
    , claims := claimsWithIds
    , verifiedText := verification.verifiedText
    , summary := verification.summary }
  let logs := if storeOk then []
              else [LogEvent.warn "Persisting verification failed (non-blocking)"]
  ( { analysisId := analysisId, trustScore := verification.trustScore,
      label := verification.label, summary := verification.summary }
  , run, logs )

-- ============================================================================
-- Derived definitions used by the theorems
-- ============================================================================

/-- The backoff sleeps a run of `fuel` consecutive failing attempts performs
when the first sleep would be `d` ms: `d, 2d, 4d, …` (none after the last
attempt). -/
def geomDelays (d fuel : ℕ) : List ℕ :=
  (List.range (fuel - 1)).map (fun k => d * 2 ^ k)

/-- The stats record keeps `successRate` consistent with its own counters:
`successCount/(successCount+failureCount) * 100`, or `0` when no call
finished yet. -/
def RateInvariant (p : ProviderStats) : Prop :=
  p.successRate =
    if 0 < p.successCount + p.failureCount
    then ((p.successCount : ℚ) / ((p.successCount + p.failureCount : ℕ) : ℚ)) * 100
    else 0

-- ============================================================================
-- Helper lemmas
-- ============================================================================

theorem updateSuccessRate_failureCount (s : ProviderStats) :
    (updateSuccessRate s).failureCount = s.failureCount := rfl

theorem updateSuccessRate_successCount (s : ProviderStats) :
    (updateSuccessRate s).successCount = s.successCount := rfl

theorem updateSuccessRate_invariant (s : ProviderStats) :
    RateInvariant (updateSuccessRate s) := by
  unfold RateInvariant updateSuccessRate
  simp

theorem calculateTrustScore_score_formula (claims : List VClaim) (h : claims ≠ []) :
    (calculateTrustScore claims).score =
      jsRound (max 0 (min 100
        ((((claims.filter (fun c => decide (c.status = VStatus.verified))).length : ℚ) * 1.0 +
          ((claims.filter (fun c => decide (c.status = VStatus.uncertain))).length : ℚ) * 0.3 +
          ((claims.filter (fun c => decide (c.status = VStatus.hallucinated))).length : ℚ) * (-1.5) -
          (claims.length : ℚ) * (-1.5)) /
         ((claims.length : ℚ) * 1.0 - (claims.length : ℚ) * (-1.5)) * 100))) := by
  unfold calculateTrustScore
  rw [if_neg (by simpa [List.length_eq_zero] using h)]

-- ============================================================================
-- C1: the enforcement pass
-- ============================================================================

/-- C1: in `enforceStrictVerdict`, a raw `partially_verified` verdict always
becomes Hallucinated (at confidence 85, with the partial-verification note);
a raw `verified` with confidence strictly below 85 becomes Hallucinated; a
raw `verified` with confidence 90 on a non-absolutist claim is returned
unchanged (stays Verified); and a raw `verified` on an absolutist claim with
confidence below 90 becomes Hallucinated. -/
theorem enforceStrictVerdict_enforcement (parsed : LLMVerdict) (claim : String) :
    (parsed.status = LStatus.partially_verified →
      enforceStrictVerdict parsed claim =
        { status := LStatus.hallucinated, confidence := 85,
          reason := parsed.reason ++ " [Partial verification = unverified]" }) ∧
    (parsed.status = LStatus.verified → parsed.confidence < 85 →
      (enforceStrictVerdict parsed claim).status = LStatus.hallucinated) ∧
    (parsed.status = LStatus.verified → parsed.confidence = 90 →
      isAbsoluteClaim claim = false → enforceStrictVerdict parsed claim = parsed) ∧
    (isAbsoluteClaim claim = true → parsed.status = LStatus.verified →
      parsed.confidence < 90 →
      (enforceStrictVerdict parsed claim).status = LStatus.hallucinated) := by
  refine ⟨?_, ?_, ?_, ?_⟩
  · intro h
    simp [enforceStrictVerdict, h]
  · intro hs hc
    simp [enforceStrictVerdict, hs, hc]
  · intro hs hc habs
    simp [enforceStrictVerdict, hs, hc, habs]
  · intro habs hs hc
    by_cases h85 : parsed.confidence < 85 <;>
      simp [enforceStrictVerdict, hs, habs, hc, h85]

/-- Witness for C1: a concrete non-absolutist claim with a raw verified
verdict at confidence 90 survives enforcement unchanged. -/
theorem enforceStrictVerdict_enforcement_witness :
    enforceStrictVerdict ⟨LStatus.verified, 90, "ok"⟩ "the sky is blue" =
      ⟨LStatus.verified, 90, "ok"⟩ :=
  (enforceStrictVerdict_enforcement ⟨LStatus.verified, 90, "ok"⟩ "the sky is blue").2.2.1
    rfl rfl (by decide)

-- ============================================================================
-- C2: the trust score aggregator
-- ============================================================================

/-- Counterexample for C2 as stated: on one verified, one uncertain and one
hallucinated claim the returned score is the rounded value 57, not the exact
normalized value (4.3/7.5)·100 = 57.333… that the claim's formula (weighted
sum normalized then clamped, with no rounding) yields. -/
theorem calculateTrustScore_rounding_cex :
    (calculateTrustScore
      [⟨"c1", "a", VStatus.verified, 90, "e", []⟩,
       ⟨"c2", "b", VStatus.uncertain, 85, "e", []⟩,
       ⟨"c3", "c", VStatus.hallucinated, 85, "e", []⟩]).score = 57 ∧
    ¬ (((calculateTrustScore
      [⟨"c1", "a", VStatus.verified, 90, "e", []⟩,
       ⟨"c2", "b", VStatus.uncertain, 85, "e", []⟩,
       ⟨"c3", "c", VStatus.hallucinated, 85, "e", []⟩]).score : ℚ) =
      ((1 * 1.0 + 1 * 0.3 + 1 * (-1.5) - 3 * (-1.5)) / (3 * 1.0 - 3 * (-1.5))) * 100) := by
  have hsc : (calculateTrustScore
      [⟨"c1", "a", VStatus.verified, 90, "e", []⟩,
       ⟨"c2", "b", VStatus.uncertain, 85, "e", []⟩,
       ⟨"c3", "c", VStatus.hallucinated, 85, "e", []⟩]).score = 57 := by
    rw [calculateTrustScore_score_formula _ (by decide)]
    have h1 : ([(⟨"c1", "a", VStatus.verified, 90, "e", []⟩ : VClaim),
       ⟨"c2", "b", VStatus.uncertain, 85, "e", []⟩,
       ⟨"c3", "c", VStatus.hallucinated, 85, "e", []⟩].filter
        (fun c => decide (c.status = VStatus.verified))).length = 1 := by decide
    have h2 : ([(⟨"c1", "a", VStatus.verified, 90, "e", []⟩ : VClaim),
       ⟨"c2", "b", VStatus.uncertain, 85, "e", []⟩,
       ⟨"c3", "c", VStatus.hallucinated, 85, "e", []⟩].filter
        (fun c => decide (c.status = VStatus.uncertain))).length = 1 := by decide
    have h3 : ([(⟨"c1", "a", VStatus.verified, 90, "e", []⟩ : VClaim),
       ⟨"c2", "b", VStatus.uncertain, 85, "e", []⟩,
       ⟨"c3", "c", VStatus.hallucinated, 85, "e", []⟩].filter
        (fun c => decide (c.status = VStatus.hallucinated))).length = 1 := by decide
    rw [h1, h2, h3]
    have hval : max (0 : ℚ) (min 100
        (((1 : ℕ) * 1.0 + ((1 : ℕ) : ℚ) * 0.3 + ((1 : ℕ) : ℚ) * (-1.5) -
          ((3 : ℕ) : ℚ) * (-1.5)) /
         (((3 : ℕ) : ℚ) * 1.0 - ((3 : ℕ) : ℚ) * (-1.5)) * 100)) = 172/3 := by
      norm_num
    simp only [List.length_cons, List.length_nil]
    rw [show ((0 : ℕ) + 1 + 1 + 1) = 3 from rfl]
    rw [hval]
    unfold jsRound
    rw [Int.floor_eq_iff]
    constructor <;> norm_num
  refine ⟨hsc, ?_⟩
  rw [hsc]
  norm_num

/-- C2 (amended): an all-Verified non-empty run scores exactly 100, an
all-Hallucinated non-empty run scores exactly 0, the empty run scores
exactly 50 with label "No Claims", and in general the returned score is the
weighted sum (+1.0 per verified, +0.3 per uncertain, -1.5 per hallucinated)
normalized against max `total*1.0` and min `total*-1.5`, clamped to [0,100]
and then rounded to the nearest integer. -/
theorem calculateTrustScore_spec (claims : List VClaim) :
    ((calculateTrustScore []).score = 50 ∧ (calculateTrustScore []).label = "No Claims") ∧
    (claims ≠ [] → (∀ c ∈ claims, c.status = VStatus.verified) →
      (calculateTrustScore claims).score = 100) ∧
    (claims ≠ [] → (∀ c ∈ claims, c.status = VStatus.hallucinated) →
      (calculateTrustScore claims).score = 0) ∧
    (claims ≠ [] →
      (calculateTrustScore claims).score =
        jsRound (max 0 (min 100
          ((((claims.filter (fun c => decide (c.status = VStatus.verified))).length : ℚ) * 1.0 +
            ((claims.filter (fun c => decide (c.status = VStatus.uncertain))).length : ℚ) * 0.3 +
            ((claims.filter (fun c => decide (c.status = VStatus.hallucinated))).length : ℚ) * (-1.5) -
            (claims.length : ℚ) * (-1.5)) /
           ((claims.length : ℚ) * 1.0 - (claims.length : ℚ) * (-1.5)) * 100)))) := by
  refine ⟨⟨by decide, by decide⟩, ?_, ?_, fun h => calculateTrustScore_score_formula claims h⟩
  · intro hne hall
    have hn : 0 < (claims.length : ℚ) := by
      exact_mod_cast List.length_pos.mpr hne
    have hv : claims.filter (fun c => decide (c.status = VStatus.verified)) = claims := by
      apply List.filter_eq_self.mpr
      intro a ha
      simp [hall a ha]
    have hu : claims.filter (fun c => decide (c.status = VStatus.uncertain)) = [] := by
      apply List.filter_eq_nil_iff.mpr
      intro a ha
      simp [hall a ha]
    have hh : claims.filter (fun c => decide (c.status = VStatus.hallucinated)) = [] := by
      apply List.filter_eq_nil_iff.mpr
      intro a ha
      simp [hall a ha]
    rw [calculateTrustScore_score_formula claims hne, hv, hu, hh]
    simp only [List.length_nil, Nat.cast_zero]
    have key : (((claims.length : ℚ) * 1.0 + 0 * 0.3 + 0 * (-1.5) -
        (claims.length : ℚ) * (-1.5)) /
        ((claims.length : ℚ) * 1.0 - (claims.length : ℚ) * (-1.5)) * 100) = 100 := by
      have hd : (claims.length : ℚ) * 1.0 - (claims.length : ℚ) * (-1.5) ≠ 0 := by
        nlinarith
      field_simp
    rw [key]
    have hmm : max (0 : ℚ) (min 100 100) = 100 := by norm_num
    rw [hmm]
    unfold jsRound
    rw [Int.floor_eq_iff]
    constructor <;> norm_num
  · intro hne hall
    have hv : claims.filter (fun c => decide (c.status = VStatus.verified)) = [] := by
      apply List.filter_eq_nil_iff.mpr
      intro a ha
      simp [hall a ha]
    have hu : claims.filter (fun c => decide (c.status = VStatus.uncertain)) = [] := by
      apply List.filter_eq_nil_iff.mpr
      intro a ha
      simp [hall a ha]
    have hh : claims.filter (fun c => decide (c.status = VStatus.hallucinated)) = claims := by
      apply List.filter_eq_self.mpr
      intro a ha
      simp [hall a ha]
    rw [calculateTrustScore_score_formula claims hne, hv, hu, hh]
    simp only [List.length_nil, Nat.cast_zero]
    have hnum : (0 : ℚ) * 1.0 + 0 * 0.3 + (claims.length : ℚ) * (-1.5) -
        (claims.length : ℚ) * (-1.5) = 0 := by ring
    rw [hnum, zero_div, zero_mul]
    have hmm : max (0 : ℚ) (min 100 0) = 0 := by norm_num
    rw [hmm]
    unfold jsRound
    rw [Int.floor_eq_iff]
    constructor <;> norm_num

/-- Witness for C2: a single verified claim scores exactly 100, a single
hallucinated claim exactly 0. -/
theorem calculateTrustScore_spec_witness :
    (calculateTrustScore [⟨"c1", "a", VStatus.verified, 90, "e", []⟩]).score = 100 ∧
    (calculateTrustScore [⟨"c1", "a", VStatus.hallucinated, 85, "e", []⟩]).score = 0 :=
  ⟨(calculateTrustScore_spec [⟨"c1", "a", VStatus.verified, 90, "e", []⟩]).2.1
      (by decide) (by decide),
   (calculateTrustScore_spec [⟨"c1", "a", VStatus.hallucinated, 85, "e", []⟩]).2.2.1
      (by decide) (by decide)⟩

-- ============================================================================
-- Helper lemmas on the retry executor
-- ============================================================================

theorem geomDelays_one (d : ℕ) : geomDelays d 1 = [] := by
  simp [geomDelays]

theorem geomDelays_succ (d f : ℕ) :
    geomDelays d (f + 2) = d :: geomDelays (d * 2) (f + 1) := by
  unfold geomDelays
  simp only [Nat.succ_sub_one, List.range_succ_eq_map, List.map_cons, List.map_map]
  congr 1
  · simp
  · apply List.map_congr_left
    intro a _
    simp only [Function.comp_apply, pow_succ]
    ring

/-- A run of `retryGo` whose work function fails at every attempt performs
all its remaining attempts, sleeps the doubling backoffs between them (none
after the last), increments the failure counter once, records the truncated
last error, logs one provider-failure event and rethrows the last error. -/
theorem retryGo_const_fail (name : String) (e : ℕ → String) (mR : ℕ) :
    ∀ fuel, 1 ≤ fuel → ∀ attempt delay st delays lastE,
      retryGo name (fun n => Except.error (e n)) mR fuel attempt delay st delays lastE =
        { result := Except.error (e (attempt + fuel - 1))
        , stats := updateSuccessRate { st with failureCount := st.failureCount + 1, lastError := some (jsErrMsg (e (attempt + fuel - 1))) }
        , calls := attempt + fuel - 1
        , delays := delays ++ geomDelays delay fuel
        , log := [LogEvent.providerFailure name (e (attempt + fuel - 1))] } := by
  intro fuel
  induction fuel with
  | zero => intro h; omega
  | succ f ih =>
    intro _ attempt delay st delays lastE
    cases f with
    | zero =>
      simp [retryGo, geomDelays]
    | succ f' =>
      rw [show attempt + (f' + 1 + 1) - 1 = attempt + 1 + (f' + 1) - 1 from by omega]
      rw [geomDelays_succ, show delays ++ delay :: geomDelays (delay * 2) (f' + 1) =
          (delays ++ [delay]) ++ geomDelays (delay * 2) (f' + 1) from by simp]
      rw [← ih (by omega) (attempt + 1) (delay * 2) st (delays ++ [delay]) (some (e attempt))]
      simp [retryGo]

theorem executeWithRetry_const_fail (name : String) (e : ℕ → String) (mR : ℕ)
    (h : 1 ≤ mR) (st : ProviderStats) :
    executeWithRetry name (fun n => Except.error (e n)) mR st =
      { result := Except.error (e mR)
      , stats := updateSuccessRate { st with failureCount := st.failureCount + 1, lastError := some (jsErrMsg (e mR)) }
      , calls := mR
      , delays := geomDelays 1000 mR
      , log := [LogEvent.providerFailure name (e mR)] } := by
  unfold executeWithRetry
  rw [retryGo_const_fail name e mR mR h 1 1000 st [] none]
  rw [show 1 + mR - 1 = mR from by omega]
  simp

/-- Along any run of `retryGo` that makes at least one attempt, the failure
counter increments exactly when the run ends in a thrown error — once per
exhausted run, never per individual failed attempt — and the success counter
exactly when it returns a value. -/
theorem retryGo_counts (name : String) (fn : ℕ → Except String String) (mR : ℕ) :
    ∀ fuel, 1 ≤ fuel → ∀ attempt delay st delays lastE,
      ((retryGo name fn mR fuel attempt delay st delays lastE).stats.failureCount =
        st.failureCount +
          (if (retryGo name fn mR fuel attempt delay st delays lastE).result.isOk
           then 0 else 1)) ∧
      ((retryGo name fn mR fuel attempt delay st delays lastE).stats.successCount =
        st.successCount +
          (if (retryGo name fn mR fuel attempt delay st delays lastE).result.isOk
           then 1 else 0)) := by
  intro fuel
  induction fuel with
  | zero => intro h; omega
  | succ f ih =>
    intro _ attempt delay st delays lastE
    cases hfn : fn attempt with
    | ok r =>
      simp [retryGo, hfn, updateSuccessRate, Except.isOk, Except.toBool]
    | error err =>
      cases f with
      | zero =>
        simp [retryGo, hfn, updateSuccessRate, Except.isOk, Except.toBool]
      | succ f' =>
        have hrec := ih (by omega) (attempt + 1) (delay * 2) st (delays ++ [delay]) (some err)
        simp only [retryGo, hfn]
        simp only [retryGo] at hrec
        simpa using hrec

/-- After any `retryGo` run that makes at least one attempt, the stats
record's success rate agrees with its own counters. -/
theorem retryGo_invariant (name : String) (fn : ℕ → Except String String) (mR : ℕ) :
    ∀ fuel, 1 ≤ fuel → ∀ attempt delay st delays lastE,
      RateInvariant ((retryGo name fn mR fuel attempt delay st delays lastE).stats) := by
  intro fuel
  induction fuel with
  | zero => intro h; omega
  | succ f ih =>
    intro _ attempt delay st delays lastE
    cases hfn : fn attempt with
    | ok r =>
      simp only [retryGo, hfn]
      exact updateSuccessRate_invariant _
    | error err =>
      cases f with
      | zero =>
        simp only [retryGo, hfn, if_pos rfl]
        exact updateSuccessRate_invariant _
      | succ f' =>
        have hrec := ih (by omega) (attempt + 1) (delay * 2) st (delays ++ [delay]) (some err)
        simp only [retryGo, hfn]
        simp only [retryGo] at hrec
        simpa using hrec

-- ============================================================================
-- C5: the retry executor on an always-failing provider
-- ============================================================================

/-- Counterexample for C5 as stated: with `maxRetries = 3` and an
always-failing work function the executor sleeps only between consecutive
attempts — 1s after attempt 1 and 2s after attempt 2 — and never performs
the claimed third 4s wait (there is no attempt after the last one). -/
theorem executeWithRetry_delays_cex :
    (executeWithRetry "groq" (fun _ => Except.error "boom") 3 initialStats.groq).delays =
      [1000, 2000] ∧
    (executeWithRetry "groq" (fun _ => Except.error "boom") 3 initialStats.groq).delays ≠
      [1000, 2000, 4000] := by
  constructor
  · decide
  · decide

/-- C5 (amended): with an always-failing work function and `maxRetries ≥ 1`,
`executeWithRetry` invokes the work function exactly `maxRetries` times,
waits `1s·2^(k-1)` after the k-th failed attempt for `k < maxRetries`
(1s, 2s for `maxRetries = 3`; no wait follows the final attempt), and then
throws the last attempt's error to the caller. -/
theorem executeWithRetry_always_fail_spec (name : String) (e : ℕ → String)
    (maxRetries : ℕ) (st : ProviderStats) (h : 1 ≤ maxRetries) :
    (executeWithRetry name (fun n => Except.error (e n)) maxRetries st).calls = maxRetries ∧
    (executeWithRetry name (fun n => Except.error (e n)) maxRetries st).delays =
      (List.range (maxRetries - 1)).map (fun k => 1000 * 2 ^ k) ∧
    (executeWithRetry name (fun n => Except.error (e n)) maxRetries st).result =
      Except.error (e maxRetries) := by
  rw [executeWithRetry_const_fail name e maxRetries h st]
  exact ⟨rfl, rfl, rfl⟩

/-- Witness for C5 (amended) at `maxRetries = 3`: exactly 3 invocations,
sleeps [1000 ms, 2000 ms], and the last error is thrown. -/
theorem executeWithRetry_always_fail_spec_witness :
    (executeWithRetry "groq" (fun _ => Except.error "boom") 3 initialStats.groq).calls = 3 ∧
    (executeWithRetry "groq" (fun _ => Except.error "boom") 3 initialStats.groq).delays =
      [1000, 2000] ∧
    (executeWithRetry "groq" (fun _ => Except.error "boom") 3 initialStats.groq).result =
      Except.error "boom" :=
  executeWithRetry_always_fail_spec "groq" (fun _ => "boom") 3 initialStats.groq (by decide)

-- ============================================================================
-- C8: the success-rate bookkeeping
-- ============================================================================

/-- Counterexample for C8 as stated: after one successful call from fresh
stats, `successRate` is `100`, not the fraction
`successCount/(successCount+failureCount) = 1` the claim asserts, and it is
not in [0,1]. -/
theorem successRate_percentage_cex :
    (executeWithRetry "groq" (fun _ => Except.ok "output") 3 initialStats.groq).stats.successCount = 1 ∧
    (executeWithRetry "groq" (fun _ => Except.ok "output") 3 initialStats.groq).stats.failureCount = 0 ∧
    (executeWithRetry "groq" (fun _ => Except.ok "output") 3 initialStats.groq).stats.successRate = 100 ∧
    ¬ ((executeWithRetry "groq" (fun _ => Except.ok "output") 3 initialStats.groq).stats.successRate ≤ 1) := by
  have hrate :
      (executeWithRetry "groq" (fun _ => Except.ok "output") 3 initialStats.groq).stats.successRate = 100 := by
    simp only [executeWithRetry, retryGo, updateSuccessRate, initialStats]
    norm_num
  refine ⟨by decide, by decide, hrate, ?_⟩
  rw [hrate]
  norm_num

/-- C8 (amended): after every `executeWithRetry` run of at least one attempt
(so after every successful call and after every exhausted failure), the
provider's stats satisfy
`successRate = successCount/(successCount+failureCount) · 100`, a percentage
in [0,100], with rate 0 when `successCount + failureCount = 0`. -/
theorem executeWithRetry_successRate_invariant (name : String)
    (fn : ℕ → Except String String) (maxRetries : ℕ) (st : ProviderStats)
    (h : 1 ≤ maxRetries) :
    RateInvariant ((executeWithRetry name fn maxRetries st).stats) ∧
    0 ≤ (executeWithRetry name fn maxRetries st).stats.successRate ∧
    (executeWithRetry name fn maxRetries st).stats.successRate ≤ 100 := by
  have hinv := retryGo_invariant name fn maxRetries maxRetries h 1 1000 st [] none
  have hinv2 := hinv
  unfold RateInvariant at hinv2
  unfold executeWithRetry
  refine ⟨hinv, ?_, ?_⟩
  · rw [hinv2]
    split
    · positivity
    · exact le_refl 0
  · rw [hinv2]
    split
    · rename_i hp
      have ht : (0 : ℚ) <
          (((retryGo name fn maxRetries maxRetries 1 1000 st [] none).stats.successCount +
            (retryGo name fn maxRetries maxRetries 1 1000 st [] none).stats.failureCount : ℕ) : ℚ) := by
        exact_mod_cast hp
      have hle : (((retryGo name fn maxRetries maxRetries 1 1000 st [] none).stats.successCount : ℕ) : ℚ) ≤
          (((retryGo name fn maxRetries maxRetries 1 1000 st [] none).stats.successCount +
            (retryGo name fn maxRetries maxRetries 1 1000 st [] none).stats.failureCount : ℕ) : ℚ) := by
        exact_mod_cast Nat.le_add_right _ _
      have hdiv := (div_le_one ht).mpr hle
      nlinarith
    · norm_num

/-- Witness for C8 (amended): the invariant and the bounds hold after a
concrete successful run. -/
theorem executeWithRetry_successRate_invariant_witness :
    RateInvariant ((executeWithRetry "groq" (fun _ => Except.ok "x") 3 initialStats.groq).stats) ∧
    0 ≤ (executeWithRetry "groq" (fun _ => Except.ok "x") 3 initialStats.groq).stats.successRate ∧
    (executeWithRetry "groq" (fun _ => Except.ok "x") 3 initialStats.groq).stats.successRate ≤ 100 :=
  executeWithRetry_successRate_invariant "groq" (fun _ => Except.ok "x") 3
    initialStats.groq (by decide)

-- ============================================================================
-- C3: the total-exhaustion fallback of the verdict cascade
-- ============================================================================

/-- C3: when Groq, Gemini and OpenRouter all fail, `getLLMVerdict` returns
the fixed conservative default — status hallucinated, confidence 85, reason
"AI verification unavailable…" — and emits a provider-failure event for
"all"; the function returns a plain value, so no exception reaches the
caller and the claim is never reported verified when unverifiable. -/
theorem getLLMVerdict_exhaustion_default (claim : String) (e1 e2 e3 : ℕ → String)
    (parseV : String → Except Unit LLMVerdict) (st : Stats) :
    (getLLMVerdict claim (fun n => Except.error (e1 n)) (fun n => Except.error (e2 n))
        (fun n => Except.error (e3 n)) parseV st).1 =
      { status := LStatus.hallucinated, confidence := 85,
        reason := "AI verification unavailable. Claim cannot be verified without AI reasoning." } ∧
    LogEvent.providerFailure "all" "All LLM providers exhausted" ∈
      (getLLMVerdict claim (fun n => Except.error (e1 n)) (fun n => Except.error (e2 n))
        (fun n => Except.error (e3 n)) parseV st).2.2 := by
  unfold getLLMVerdict
  rw [executeWithRetry_const_fail "groq" e1 3 (by omega) st.groq]
  simp only [tryVerdict]
  rw [executeWithRetry_const_fail "gemini" e2 3 (by omega)]
  simp only [tryVerdict]
  rw [executeWithRetry_const_fail "openrouter" e3 3 (by omega)]
  simp [tryVerdict]

-- ============================================================================
-- C6: the sliding-window admission queue
-- ============================================================================

/-- C6: when the `(C+1)`-th request arrives at `now` with the `C` previous
admission timestamps all inside the trailing window `W` (the oldest first,
as chronological appends guarantee), `simpleQueueAdd` starts its work
function only at `oldest + W + 100` — strictly after the oldest admission
has aged out of the window — and the request is not dropped: its admission
is recorded after the existing ones. -/
theorem simpleQueueAdd_admission (interval : ℤ) (cap : ℕ) (times : List ℤ) (now : ℤ)
    (hcap : 0 < cap) (hlen : cap ≤ times.length)
    (holdest : ∀ t ∈ times, times.headD 0 ≤ t)
    (hin : ∀ t ∈ times, now - t < interval) :
    (simpleQueueAdd interval cap times now).1 = times.headD 0 + interval + 100 ∧
    times.headD 0 + interval < (simpleQueueAdd interval cap times now).1 ∧
    (simpleQueueAdd interval cap times now).2 =
      times ++ [(simpleQueueAdd interval cap times now).1] := by
  have hfilter : times.filter (fun t => decide (now - t < interval)) = times :=
    List.filter_eq_self.mpr (fun a ha => by simp [hin a ha])
  obtain ⟨t0, rest, rfl⟩ : ∃ t0 rest, times = t0 :: rest := by
    cases times with
    | nil => simp at hlen; omega
    | cons a l => exact ⟨a, l, rfl⟩
  have h0in : now - t0 < interval := hin t0 (by simp)
  have hwait : max 0 (interval - (now - t0) + 100) = interval - (now - t0) + 100 := by
    apply max_eq_right; omega
  simp only [simpleQueueAdd, hfilter, if_pos hlen, List.headD_cons, hwait]
  refine ⟨by ring, by omega, by simp⟩

/-- Witness for C6: two admissions inside a 60000 ms window at capacity 2;
the third request at time 30 starts at 10 + 60000 + 100 and is appended. -/
theorem simpleQueueAdd_admission_witness :
    (simpleQueueAdd 60000 2 [10, 20] 30).1 = 10 + 60000 + 100 ∧
    (10 : ℤ) + 60000 < (simpleQueueAdd 60000 2 [10, 20] 30).1 ∧
    (simpleQueueAdd 60000 2 [10, 20] 30).2 =
      [10, 20] ++ [(simpleQueueAdd 60000 2 [10, 20] 30).1] :=
  simpleQueueAdd_admission 60000 2 [10, 20] 30 (by decide) (by decide)
    (by decide) (by decide)

-- ============================================================================
-- Helper lemmas on the cascades when every provider fails
-- ============================================================================

theorem extractClaimAnalysis_const_fail (claim : String) (e1 e2 e3 : ℕ → String)
    (parseA : String → Except Unit ClaimAnalysis) (st : Stats) :
    extractClaimAnalysis claim (fun n => Except.error (e1 n)) (fun n => Except.error (e2 n))
        (fun n => Except.error (e3 n)) parseA st =
      ( extractClaimAnalysisFallback claim
      , { gemini := updateSuccessRate { st.gemini with failureCount := st.gemini.failureCount + 1, lastError := some (jsErrMsg (e1 3)) }
        , groq := updateSuccessRate { st.groq with failureCount := st.groq.failureCount + 1, lastError := some (jsErrMsg (e2 3)) }
        , openrouter := updateSuccessRate { st.openrouter with failureCount := st.openrouter.failureCount + 1, lastError := some (jsErrMsg (e3 3)) } }
      , [LogEvent.providerFailure "gemini" (e1 3), LogEvent.providerFailure "groq" (e2 3),
         LogEvent.providerFailure "openrouter" (e3 3)] ) := by
  unfold extractClaimAnalysis
  rw [executeWithRetry_const_fail "gemini" e1 3 (by omega) st.gemini]
  simp only [tryParseAnalysis]
  rw [executeWithRetry_const_fail "groq" e2 3 (by omega)]
  simp only [tryParseAnalysis]
  rw [executeWithRetry_const_fail "openrouter" e3 3 (by omega)]
  simp [tryParseAnalysis]

theorem getLLMVerdict_const_fail (claim : String) (e1 e2 e3 : ℕ → String)
    (parseV : String → Except Unit LLMVerdict) (st : Stats) :
    getLLMVerdict claim (fun n => Except.error (e1 n)) (fun n => Except.error (e2 n))
        (fun n => Except.error (e3 n)) parseV st =
      ( { status := LStatus.hallucinated, confidence := 85,
          reason := "AI verification unavailable. Claim cannot be verified without AI reasoning." }
      , { gemini := updateSuccessRate { st.gemini with failureCount := st.gemini.failureCount + 1, lastError := some (jsErrMsg (e2 3)) }
        , groq := updateSuccessRate { st.groq with failureCount := st.groq.failureCount + 1, lastError := some (jsErrMsg (e1 3)) }
        , openrouter := updateSuccessRate { st.openrouter with failureCount := st.openrouter.failureCount + 1, lastError := some (jsErrMsg (e3 3)) } }
      , [LogEvent.providerFailure "groq" (e1 3), LogEvent.providerFailure "gemini" (e2 3),
         LogEvent.providerFailure "openrouter" (e3 3),
         LogEvent.providerFailure "all" "All LLM providers exhausted"] ) := by
  unfold getLLMVerdict
  rw [executeWithRetry_const_fail "groq" e1 3 (by omega) st.groq]
  simp only [tryVerdict]
  rw [executeWithRetry_const_fail "gemini" e2 3 (by omega)]
  simp only [tryVerdict]
  rw [executeWithRetry_const_fail "openrouter" e3 3 (by omega)]
  simp [tryVerdict]

-- ============================================================================
-- C4: empty evidence and the final verdict
-- ============================================================================

/-- Counterexample for C4 as stated: with both evidence sources missing
(no Wikipedia hit, no search results, so the placeholder evidence entry is
substituted), a raw reasoning-engine reply of `verified` at confidence 95
passes the enforcement pass untouched and `verifyClaim` reports **Verified**
— the enforcement never inspects the gathered evidence. -/
theorem verifyClaim_empty_evidence_verified_cex :
    (verifyClaim "x" (fun _ => Except.error "down") (fun _ => Except.error "down")
        (fun _ => Except.error "down") (fun _ => Except.error ()) (fun _ => none) []
        (fun _ => Except.ok "01234567890123456789012") (fun _ => Except.error "x")
        (fun _ => Except.error "x") (fun _ => Except.ok ⟨LStatus.verified, 95, "r"⟩)
        initialStats).1.status = VStatus.verified ∧
    (verifyClaim "x" (fun _ => Except.error "down") (fun _ => Except.error "down")
        (fun _ => Except.error "down") (fun _ => Except.error ()) (fun _ => none) []
        (fun _ => Except.ok "01234567890123456789012") (fun _ => Except.error "x")
        (fun _ => Except.error "x") (fun _ => Except.ok ⟨LStatus.verified, 95, "r"⟩)
        initialStats).1.evidence =
      [{ source := "AI Verification Engine", verdict := "Analysis complete", url := none }] := by
  constructor
  · decide
  · have hfm : ∀ l : List String, l.filterMap (fun _ => (none : Option WikiResult)) = [] := by
      intro l
      induction l with
      | nil => rfl
      | cons a t ih => simp [List.filterMap_cons, ih]
    simp only [verifyClaim, hfm]
    simp

/-- C4 (amended): with empty evidence the verdict is conservative only in
the total-exhaustion case: when every reasoning provider fails, the final
status of `verifyClaim` is Hallucinated, never Verified. (The counterexample
shows the full claim fails: the enforcement pass ignores the evidence, so a
raw `verified` reply at confidence ≥ 85 yields Verified even with zero
gathered evidence.) -/
theorem verifyClaim_all_providers_fail_hallucinated (claim : String)
    (e1 e2 e3 e4 e5 e6 : ℕ → String) (parseA : String → Except Unit ClaimAnalysis)
    (wiki : String → Option WikiResult) (searchResults : List SearchResult)
    (parseV : String → Except Unit LLMVerdict) (st : Stats)
    (_hwiki : ∀ s, wiki s = none) (_hsearch : searchResults = []) :
    (verifyClaim claim (fun n => Except.error (e1 n)) (fun n => Except.error (e2 n))
        (fun n => Except.error (e3 n)) parseA wiki searchResults
        (fun n => Except.error (e4 n)) (fun n => Except.error (e5 n))
        (fun n => Except.error (e6 n)) parseV st).1.status = VStatus.hallucinated ∧
    (verifyClaim claim (fun n => Except.error (e1 n)) (fun n => Except.error (e2 n))
        (fun n => Except.error (e3 n)) parseA wiki searchResults
        (fun n => Except.error (e4 n)) (fun n => Except.error (e5 n))
        (fun n => Except.error (e6 n)) parseV st).1.status ≠ VStatus.verified := by
  have hmain : (verifyClaim claim (fun n => Except.error (e1 n)) (fun n => Except.error (e2 n))
      (fun n => Except.error (e3 n)) parseA wiki searchResults
      (fun n => Except.error (e4 n)) (fun n => Except.error (e5 n))
      (fun n => Except.error (e6 n)) parseV st).1.status = VStatus.hallucinated := by
    simp only [verifyClaim, extractClaimAnalysis_const_fail, getLLMVerdict_const_fail]
  exact ⟨hmain, by rw [hmain]; intro hcontra; cases hcontra⟩

/-- Witness for C4 (amended): a concrete claim with both evidence sources
missing and every provider failing ends Hallucinated. -/
theorem verifyClaim_all_providers_fail_hallucinated_witness :
    (verifyClaim "x" (fun _ => Except.error "a") (fun _ => Except.error "b")
        (fun _ => Except.error "c") (fun _ => Except.error ()) (fun _ => none) []
        (fun _ => Except.error "d") (fun _ => Except.error "e")
        (fun _ => Except.error "f") (fun _ => Except.error ())
        initialStats).1.status = VStatus.hallucinated ∧
    (verifyClaim "x" (fun _ => Except.error "a") (fun _ => Except.error "b")
        (fun _ => Except.error "c") (fun _ => Except.error ()) (fun _ => none) []
        (fun _ => Except.error "d") (fun _ => Except.error "e")
        (fun _ => Except.error "f") (fun _ => Except.error ())
        initialStats).1.status ≠ VStatus.verified :=
  verifyClaim_all_providers_fail_hallucinated "x" (fun _ => "a") (fun _ => "b")
    (fun _ => "c") (fun _ => "d") (fun _ => "e") (fun _ => "f")
    (fun _ => Except.error ()) (fun _ => none) [] (fun _ => Except.error ())
    initialStats (fun _ => rfl) rfl

-- ============================================================================
-- C7: failure-count bookkeeping over one end-to-end claim
-- ============================================================================

/-- Counterexample for C7 as stated: processing one claim with every
provider failing increments each provider's `failureCount` **twice** — once
when the entity-extraction cascade exhausts it and once more when the
verdict cascade does — not exactly once as claimed. -/
theorem providerFailure_double_increment_cex :
    (verifyClaim "x" (fun _ => Except.error "a") (fun _ => Except.error "b")
        (fun _ => Except.error "c") (fun _ => Except.error ()) (fun _ => none) []
        (fun _ => Except.error "d") (fun _ => Except.error "e")
        (fun _ => Except.error "f") (fun _ => Except.error ())
        initialStats).2.1.gemini.failureCount = 2 ∧
    ¬ ((verifyClaim "x" (fun _ => Except.error "a") (fun _ => Except.error "b")
        (fun _ => Except.error "c") (fun _ => Except.error ()) (fun _ => none) []
        (fun _ => Except.error "d") (fun _ => Except.error "e")
        (fun _ => Except.error "f") (fun _ => Except.error ())
        initialStats).2.1.gemini.failureCount = 1) := by
  constructor
  · decide
  · decide

/-- C7 (amended): with all three providers failing, one end-to-end claim
(entity extraction, then verdict) increments each provider's `failureCount`
by exactly **2** — one increment per exhausted cascade leg — leaving
`successCount` untouched; and in any `executeWithRetry` run of at least one
attempt the failure counter moves only when the run ends exhausted (by
exactly 1), never on an individual failed attempt, while the success counter
moves exactly on a successful return. -/
theorem verifyClaim_failure_counts (st : Stats) (claim : String)
    (e1 e2 e3 e4 e5 e6 : ℕ → String) (parseA : String → Except Unit ClaimAnalysis)
    (wiki : String → Option WikiResult) (searchResults : List SearchResult)
    (parseV : String → Except Unit LLMVerdict)
    (name : String) (fn : ℕ → Except String String) (m : ℕ)
    (p : ProviderStats) (hm : 1 ≤ m) :
    ((verifyClaim claim (fun n => Except.error (e1 n)) (fun n => Except.error (e2 n))
        (fun n => Except.error (e3 n)) parseA wiki searchResults
        (fun n => Except.error (e4 n)) (fun n => Except.error (e5 n))
        (fun n => Except.error (e6 n)) parseV st).2.1.gemini.failureCount =
      st.gemini.failureCount + 2) ∧
    ((verifyClaim claim (fun n => Except.error (e1 n)) (fun n => Except.error (e2 n))
        (fun n => Except.error (e3 n)) parseA wiki searchResults
        (fun n => Except.error (e4 n)) (fun n => Except.error (e5 n))
        (fun n => Except.error (e6 n)) parseV st).2.1.groq.failureCount =
      st.groq.failureCount + 2) ∧
    ((verifyClaim claim (fun n => Except.error (e1 n)) (fun n => Except.error (e2 n))
        (fun n => Except.error (e3 n)) parseA wiki searchResults
        (fun n => Except.error (e4 n)) (fun n => Except.error (e5 n))
        (fun n => Except.error (e6 n)) parseV st).2.1.openrouter.failureCount =
      st.openrouter.failureCount + 2) ∧
    ((verifyClaim claim (fun n => Except.error (e1 n)) (fun n => Except.error (e2 n))
        (fun n => Except.error (e3 n)) parseA wiki searchResults
        (fun n => Except.error (e4 n)) (fun n => Except.error (e5 n))
        (fun n => Except.error (e6 n)) parseV st).2.1.gemini.successCount =
      st.gemini.successCount) ∧
    ((verifyClaim claim (fun n => Except.error (e1 n)) (fun n => Except.error (e2 n))
        (fun n => Except.error (e3 n)) parseA wiki searchResults
        (fun n => Except.error (e4 n)) (fun n => Except.error (e5 n))
        (fun n => Except.error (e6 n)) parseV st).2.1.groq.successCount =
      st.groq.successCount) ∧
    ((verifyClaim claim (fun n => Except.error (e1 n)) (fun n => Except.error (e2 n))
        (fun n => Except.error (e3 n)) parseA wiki searchResults
        (fun n => Except.error (e4 n)) (fun n => Except.error (e5 n))
        (fun n => Except.error (e6 n)) parseV st).2.1.openrouter.successCount =
      st.openrouter.successCount) ∧
    ((executeWithRetry name fn m p).stats.failureCount =
      p.failureCount + (if (executeWithRetry name fn m p).result.isOk then 0 else 1)) ∧
    ((executeWithRetry name fn m p).stats.successCount =
      p.successCount + (if (executeWithRetry name fn m p).result.isOk then 1 else 0)) := by
  have hcounts := retryGo_counts name fn m m hm 1 1000 p [] none
  refine ⟨?_, ?_, ?_, ?_, ?_, ?_, hcounts.1, hcounts.2⟩ <;>
    simp [verifyClaim, extractClaimAnalysis_const_fail, getLLMVerdict_const_fail,
      updateSuccessRate]

/-- Witness for C7 (amended) at concrete inputs: each counter ends at 2 from
fresh stats, and a concrete exhausted `executeWithRetry` run increments its
failure counter exactly once. -/
theorem verifyClaim_failure_counts_witness :
    ((verifyClaim "x" (fun _ => Except.error "a") (fun _ => Except.error "b")
        (fun _ => Except.error "c") (fun _ => Except.error ()) (fun _ => none) []
        (fun _ => Except.error "d") (fun _ => Except.error "e")
        (fun _ => Except.error "f") (fun _ => Except.error ())
        initialStats).2.1.gemini.failureCount = initialStats.gemini.failureCount + 2) ∧
    ((verifyClaim "x" (fun _ => Except.error "a") (fun _ => Except.error "b")
        (fun _ => Except.error "c") (fun _ => Except.error ()) (fun _ => none) []
        (fun _ => Except.error "d") (fun _ => Except.error "e")
        (fun _ => Except.error "f") (fun _ => Except.error ())
        initialStats).2.1.groq.failureCount = initialStats.groq.failureCount + 2) ∧
    ((verifyClaim "x" (fun _ => Except.error "a") (fun _ => Except.error "b")
        (fun _ => Except.error "c") (fun _ => Except.error ()) (fun _ => none) []
        (fun _ => Except.error "d") (fun _ => Except.error "e")
        (fun _ => Except.error "f") (fun _ => Except.error ())
        initialStats).2.1.openrouter.failureCount = initialStats.openrouter.failureCount + 2) ∧
    ((verifyClaim "x" (fun _ => Except.error "a") (fun _ => Except.error "b")
        (fun _ => Except.error "c") (fun _ => Except.error ()) (fun _ => none) []
        (fun _ => Except.error "d") (fun _ => Except.error "e")
        (fun _ => Except.error "f") (fun _ => Except.error ())
        initialStats).2.1.gemini.successCount = initialStats.gemini.successCount) ∧
    ((verifyClaim "x" (fun _ => Except.error "a") (fun _ => Except.error "b")
        (fun _ => Except.error "c") (fun _ => Except.error ()) (fun _ => none) []
        (fun _ => Except.error "d") (fun _ => Except.error "e")
        (fun _ => Except.error "f") (fun _ => Except.error ())
        initialStats).2.1.groq.successCount = initialStats.groq.successCount) ∧
    ((verifyClaim "x" (fun _ => Except.error "a") (fun _ => Except.error "b")
        (fun _ => Except.error "c") (fun _ => Except.error ()) (fun _ => none) []
        (fun _ => Except.error "d") (fun _ => Except.error "e")
        (fun _ => Except.error "f") (fun _ => Except.error ())
        initialStats).2.1.openrouter.successCount = initialStats.openrouter.successCount) ∧
    ((executeWithRetry "groq" (fun _ => Except.error "boom") 3 initialStats.groq).stats.failureCount =
      initialStats.groq.failureCount +
        (if (executeWithRetry "groq" (fun _ => Except.error "boom") 3 initialStats.groq).result.isOk
         then 0 else 1)) ∧
    ((executeWithRetry "groq" (fun _ => Except.error "boom") 3 initialStats.groq).stats.successCount =
      initialStats.groq.successCount +
        (if (executeWithRetry "groq" (fun _ => Except.error "boom") 3 initialStats.groq).result.isOk
         then 1 else 0)) :=
  verifyClaim_failure_counts initialStats "x" (fun _ => "a") (fun _ => "b") (fun _ => "c")
    (fun _ => "d") (fun _ => "e") (fun _ => "f") (fun _ => Except.error ()) (fun _ => none)
    [] (fun _ => Except.error ()) "groq" (fun _ => Except.error "boom") 3
    initialStats.groq (by decide)

-- ============================================================================
-- C10: the evidence list is never empty
-- ============================================================================

/-- C10: for every claim and every outcome of evidence gathering,
`verifyClaim` returns a non-empty evidence list; when both sources miss
(the knowledge-base lookup returns nothing for every entity and web search
returns no results), the returned evidence is exactly the single placeholder
entry with source "AI Verification Engine" and verdict "Analysis complete". -/
theorem verifyClaim_evidence_placeholder (claim : String)
    (extFnGemini extFnGroq extFnOpenrouter : ℕ → Except String String)
    (parseA : String → Except Unit ClaimAnalysis)
    (wiki : String → Option WikiResult) (searchResults : List SearchResult)
    (verFnGroq verFnGemini verFnOpenrouter : ℕ → Except String String)
    (parseV : String → Except Unit LLMVerdict) (st : Stats) :
    (verifyClaim claim extFnGemini extFnGroq extFnOpenrouter parseA wiki searchResults
        verFnGroq verFnGemini verFnOpenrouter parseV st).1.evidence ≠ [] ∧
    ((∀ s, wiki s = none) → searchResults = [] →
      (verifyClaim claim extFnGemini extFnGroq extFnOpenrouter parseA wiki searchResults
          verFnGroq verFnGemini verFnOpenrouter parseV st).1.evidence =
        [{ source := "AI Verification Engine", verdict := "Analysis complete",
           url := none }]) := by
  constructor
  · simp only [verifyClaim]
    split
    · simp
    · simp
  · intro hwiki hsearch
    have hfm : ∀ l : List String, l.filterMap wiki = [] := by
      intro l
      induction l with
      | nil => rfl
      | cons a t ih => simp [List.filterMap_cons, hwiki a, ih]
    simp only [verifyClaim, hfm, hsearch]
    simp

/-- Witness for C10: with a missing knowledge base and empty search results
the placeholder is returned, and it is not empty. -/
theorem verifyClaim_evidence_placeholder_witness :
    (verifyClaim "x" (fun _ => Except.error "a") (fun _ => Except.error "b")
        (fun _ => Except.error "c") (fun _ => Except.error ()) (fun _ => none) []
        (fun _ => Except.error "d") (fun _ => Except.error "e")
        (fun _ => Except.error "f") (fun _ => Except.error ())
        initialStats).1.evidence ≠ [] ∧
    ((∀ s : String, (fun _ : String => (none : Option WikiResult)) s = none) →
      ([] : List SearchResult) = [] →
      (verifyClaim "x" (fun _ => Except.error "a") (fun _ => Except.error "b")
          (fun _ => Except.error "c") (fun _ => Except.error ()) (fun _ => none) []
          (fun _ => Except.error "d") (fun _ => Except.error "e")
          (fun _ => Except.error "f") (fun _ => Except.error ())
          initialStats).1.evidence =
        [{ source := "AI Verification Engine", verdict := "Analysis complete",
           url := none }]) :=
  verifyClaim_evidence_placeholder "x" (fun _ => Except.error "a") (fun _ => Except.error "b")
    (fun _ => Except.error "c") (fun _ => Except.error ()) (fun _ => none) []
    (fun _ => Except.error "d") (fun _ => Except.error "e") (fun _ => Except.error "f")
    (fun _ => Except.error ()) initialStats

-- ============================================================================
-- C9: persistence failure and the two analyze variants
-- ============================================================================

/-- Counterexample for C9 as stated: in the Mongo-backed `analyze`
(`verification.service.ts`) the `VerificationResult.create` call is not
wrapped in any try/catch, so when the store throws, `analyze` throws too and
the computed result is **not** returned to the caller. -/
theorem backendAnalyze_persistence_cex :
    backendAnalyze "The sky is blue."
      [⟨"c1", "The sky is blue.", VStatus.verified, 90, "ex", []⟩] false "id1" =
      Except.error () := rfl

/-- C9 (amended): only the in-memory `analyze` variant (part_008) swallows a
persistence failure: the returned response and the stored run record are
identical whether or not the store's `create` throws, the failure is logged
as a warning, and the response carries the computed trustScore, label and
summary under the run's id. The Mongo-backed variant instead propagates the
store error (see the counterexample). -/
theorem part008Analyze_persistence_swallowed (text : String)
    (verification : VerifyResponse) (analysisId : String) :
    (part008Analyze text verification analysisId false).1 =
      (part008Analyze text verification analysisId true).1 ∧
    (part008Analyze text verification analysisId false).2.1 =
      (part008Analyze text verification analysisId true).2.1 ∧
    (part008Analyze text verification analysisId false).2.2 =
      [LogEvent.warn "Persisting verification failed (non-blocking)"] ∧
    (part008Analyze text verification analysisId false).1 =
      { analysisId := analysisId, trustScore := verification.trustScore,
        label := verification.label, summary := verification.summary } :=
  ⟨rfl, rfl, rfl, rfl⟩

end TrustLayer
